import Mathlib

/-!
Shallow embedding of the simulation core of the "Epic Crab Dash" endless
runner (src/src/App.tsx).  Numeric quantities (positions, velocities,
speeds) are JavaScript numbers in the source; cross the whole engine they
only undergo addition, subtraction, multiplication by constants, `min`,
`max` and comparisons, so they are embedded as rationals (`ℚ`).  Wall
times (`Date.now()`) are embedded as integers (milliseconds).  The
ambient randomness (`Math.random()`) is injected explicitly as parameters
so every definition is a pure function of its inputs, exactly mirroring
the arithmetic of the source.
-/

namespace CrabDash

/-- `type GameState = 'menu' | 'playing' | 'gameover'` (App.tsx line 3). -/
inductive GameState where
  | menu
  | playing
  | gameover
deriving DecidableEq

/-- `type ObstacleType = 'rock' | 'wave' | 'seagull' | 'jellyfish'` (line 4). -/
inductive ObstacleType where
  | rock
  | wave
  | seagull
  | jellyfish
deriving DecidableEq

/-- `interface Obstacle` (lines 6-13). -/
structure Obstacle where
  id : ℕ
  x : ℚ
  y : ℚ
  type : ObstacleType
  width : ℚ
  height : ℚ
deriving DecidableEq

/-- `interface Particle` (lines 15-23). -/
structure Particle where
  id : ℕ
  x : ℚ
  y : ℚ
  vx : ℚ
  vy : ℚ
  life : ℚ
  color : String
deriving DecidableEq

/- Constants, lines 25-32 of App.tsx. -/

def GAME_WIDTH : ℚ := 800
def GAME_HEIGHT : ℚ := 400
def GROUND_Y : ℚ := 320
def CRAB_WIDTH : ℚ := 50
def CRAB_HEIGHT : ℚ := 40
def GRAVITY : ℚ := 8/10
def JUMP_FORCE : ℚ := -15
def SLIDE_HEIGHT : ℚ := 20

/-! ## Collision detector (`checkCollision`, lines 113-134) -/

/-- The vertical offset of the player hitbox:
`const crabYOffset = sliding ? GROUND_Y - SLIDE_HEIGHT : crabYPos` (line 116). -/
def crabHitY (crabYPos : ℚ) (sliding : Bool) : ℚ :=
  if sliding then GROUND_Y - SLIDE_HEIGHT else crabYPos

/-- The height of the player hitbox:
`const crabH = sliding ? SLIDE_HEIGHT : CRAB_HEIGHT` (line 115). -/
def crabHitH (sliding : Bool) : ℚ :=
  if sliding then SLIDE_HEIGHT else CRAB_HEIGHT

/-- The per-obstacle AABB overlap test, the body of the `for` loop of
`checkCollision` (lines 118-131): all four separating-axis conditions are
strict inequalities. -/
def overlapsCrab (crabYOffset crabH : ℚ) (obs : Obstacle) : Bool :=
  let crabX : ℚ := 100
  let obsRight := obs.x + obs.width
  let obsBottom := obs.y + obs.height
  let crabRight := crabX + CRAB_WIDTH
  let crabBottom := crabYOffset + crabH
  decide (crabX < obsRight) && decide (crabRight > obs.x) &&
    decide (crabYOffset < obsBottom) && decide (crabBottom > obs.y)

/-- `checkCollision(crabYPos, sliding)` (lines 113-134): returns `true` on
the first overlapping obstacle (the `for` loop returns early), `false` if
none overlaps.  `List.any` short-circuits exactly like the loop. -/
def checkCollision (obstacles : List Obstacle) (crabYPos : ℚ) (sliding : Bool) : Bool :=
  obstacles.any (overlapsCrab (crabHitY crabYPos sliding) (crabHitH sliding))

/-! ## Player physics (the crab-physics block of `gameLoop`, lines 142-160) -/

/-- The player-physics fields of the engine state. -/
structure PhysicsState where
  crabY : ℚ
  crabVelocity : ℚ
  isJumping : Bool
deriving DecidableEq

/-- The `setCrabY` updater of `gameLoop` (lines 143-160), together with the
nested `setCrabVelocity` / `setIsJumping` calls: while jumping or above
ground level, velocity gains gravity, position gains the new velocity, and
on reaching or crossing the ground plane position is clamped, velocity is
zeroed and the jumping flag cleared. -/
def physicsStep (p : PhysicsState) : PhysicsState :=
  if p.isJumping = true ∨ p.crabY < GROUND_Y - CRAB_HEIGHT then
    let newVel := p.crabVelocity + GRAVITY
    let newY := p.crabY + newVel
    if newY ≥ GROUND_Y - CRAB_HEIGHT then
      { crabY := GROUND_Y - CRAB_HEIGHT, crabVelocity := 0, isJumping := false }
    else
      { crabY := newY, crabVelocity := newVel, isJumping := p.isJumping }
  else p

/-! ## Particles (`createParticles`, lines 56-70; particle update, lines 171-180) -/

/-- The three `Math.random()` draws used for one particle (velocity x,
velocity y, life), injected explicitly. -/
structure ParticleRand where
  r1 : ℚ
  r2 : ℚ
  r3 : ℚ
deriving DecidableEq

/-- One particle built by the loop body of `createParticles` (lines 58-68),
with its random draws injected. -/
def mkParticle (id : ℕ) (x y : ℚ) (color : String) (r : ParticleRand) : Particle :=
  { id := id, x := x, y := y,
    vx := (r.r1 - 1/2) * 8, vy := (r.r2 - 1) * 6,
    life := 30 + r.r3 * 20, color := color }

/-- `createParticles(x, y, count, color)` (lines 56-70): `count` is the
length of the injected random list; ids are drawn from the particle id
counter starting at `startId`. -/
def createParticles (x y : ℚ) (color : String) (startId : ℕ)
    (rs : List ParticleRand) : List Particle :=
  (List.range rs.length).zip rs |>.map fun ir =>
    mkParticle (startId + ir.1) x y color ir.2

/-- The per-particle update of `gameLoop` (lines 172-178): ballistic motion
with constant downward acceleration 0.3 and a life countdown. -/
def stepParticle (p : Particle) : Particle :=
  { p with x := p.x + p.vx, y := p.y + p.vy, vy := p.vy + 3/10, life := p.life - 1 }

/-- The `setParticles` updater of `gameLoop` (lines 171-180): map the step,
then drop dead particles. -/
def advanceParticles (ps : List Particle) : List Particle :=
  (ps.map stepParticle).filter (fun p => decide (p.life > 0))

/-! ## Obstacles (`spawnObstacle`, lines 72-111; advance/prune, lines 162-168) -/

/-- The geometry switch of `spawnObstacle` (lines 80-101): `(y, width,
height)` by type; for airborne types `y` includes the injected
`Math.random()` jitter draw. -/
def obstacleGeometry (t : ObstacleType) (jitter : ℚ) : ℚ × ℚ × ℚ :=
  match t with
  | .rock => (GROUND_Y - 35, 45, 35)
  | .wave => (GROUND_Y - 50, 60, 50)
  | .seagull => (GROUND_Y - 100 - jitter * 60, 50, 30)
  | .jellyfish => (GROUND_Y - 70 - jitter * 40, 35, 45)

/-- The obstacle appended by `spawnObstacle` (lines 103-110): spawned at
`x = GAME_WIDTH + 50`, id drawn from the obstacle id counter. -/
def spawnObstacle (t : ObstacleType) (jitter : ℚ) (id : ℕ) : Obstacle :=
  let g := obstacleGeometry t jitter
  { id := id, x := GAME_WIDTH + 50, y := g.1, type := t, width := g.2.1, height := g.2.2 }

/-- `{ ...obs, x: obs.x - gameSpeed }` (line 165). -/
def moveObstacle (speed : ℚ) (o : Obstacle) : Obstacle :=
  { o with x := o.x - speed }

/-- The `setObstacles` updater of `gameLoop` (lines 163-168): every obstacle
moves left by the scroll speed, then obstacles at `x ≤ -100` are pruned
(the filter keeps `obs.x > -100`). -/
def advanceObstacles (speed : ℚ) (l : List Obstacle) : List Obstacle :=
  (l.map (moveObstacle speed)).filter (fun o => decide (o.x > -100))

/-! ## Difficulty / spawn timing (lines 182-192) -/

/-- The spawn interval of line 184: `1500 - Math.min(score * 2, 800)`
milliseconds. -/
def spawnInterval (score : ℕ) : ℤ :=
  1500 - min ((score : ℤ) * 2) 800

/-- The spawn guard of line 184:
`now - lastObstacleTimeRef.current > 1500 - Math.min(score * 2, 800)`. -/
def shouldSpawn (now lastTime : ℤ) (score : ℕ) : Bool :=
  decide (now - lastTime > spawnInterval score)

/-- JavaScript `%` on numbers (sign of the dividend); used for the parallax
wrap-around of line 140, where both operands are non-negative. -/
def jsMod (a b : ℚ) : ℚ :=
  if 0 ≤ a / b then a - b * (Int.floor (a / b) : ℚ) else a - b * (Int.ceil (a / b) : ℚ)

/-! ## The whole engine state

One record collecting every piece of mutable state of the component: the
`useState` hooks (lines 35-48) and the `useRef` counters (lines 50-54).
`highScore` is seeded from storage by the caller; the engine itself only
compares and surfaces it. -/

structure EngineState where
  gameState : GameState
  score : ℕ
  highScore : ℕ
  crabY : ℚ
  crabVelocity : ℚ
  isSliding : Bool
  isJumping : Bool
  obstacles : List Obstacle
  particles : List Particle
  gameSpeed : ℚ
  parallaxOffset : ℚ
  nextObstacleId : ℕ
  nextParticleId : ℕ
  lastObstacleTime : ℤ
  frameCount : ℕ
deriving DecidableEq

/-- The initial hook values (lines 35-54), with `highScore` defaulting to 0
(no stored value). -/
def initialState : EngineState :=
  { gameState := .menu, score := 0, highScore := 0,
    crabY := GROUND_Y - CRAB_HEIGHT, crabVelocity := 0,
    isSliding := false, isJumping := false,
    obstacles := [], particles := [], gameSpeed := 6, parallaxOffset := 0,
    nextObstacleId := 0, nextParticleId := 0, lastObstacleTime := 0, frameCount := 0 }

/-- The ambient inputs of one tick: the wall clock read (`Date.now()`,
line 183) and the random draws used by `spawnObstacle`, by the sand
particles of line 201 and by the death burst of line 217. -/
structure TickEnv where
  now : ℤ
  spawnType : ObstacleType
  spawnJitter : ℚ
  sandRands : List ParticleRand
  deathRands : List ParticleRand

/-- One tick of the engine while `Playing`: the body of `gameLoop`
(lines 136-204) followed by the collision-check effect (lines 208-220),
which runs against the freshly updated state of the same commit.  Outside
`Playing` no tick runs at all (the effect of lines 222-234 only schedules
`gameLoop` while `gameState === 'playing'` and cancels the pending frame on
leaving it), so `tick` is the identity there.

Order inside the tick, as in the source: frame counter, parallax, crab
physics, obstacle advance/prune, particle advance/prune, conditional spawn,
conditional speed ramp, conditional score increment, sand particles, then
the collision check against the post-update player and obstacle state; on a
hit: transition to `gameover`, surface the high score, emit a death burst. -/
def tick (env : TickEnv) (s : EngineState) : EngineState :=
  if s.gameState = .playing then
    let fc := s.frameCount + 1
    let parallax := jsMod (s.parallaxOffset + s.gameSpeed * (1/2)) 800
    let ph := physicsStep
      { crabY := s.crabY, crabVelocity := s.crabVelocity, isJumping := s.isJumping }
    let obs1 := advanceObstacles s.gameSpeed s.obstacles
    let parts1 := advanceParticles s.particles
    let doSpawn := shouldSpawn env.now s.lastObstacleTime s.score
    let obs2 := if doSpawn
      then obs1 ++ [spawnObstacle env.spawnType env.spawnJitter s.nextObstacleId]
      else obs1
    let nextOid := if doSpawn then s.nextObstacleId + 1 else s.nextObstacleId
    let lastT := if doSpawn then env.now else s.lastObstacleTime
    let speed2 := if fc % 300 = 0 then min (s.gameSpeed + 1/2) 15 else s.gameSpeed
    let score2 := if fc % 10 = 0 then s.score + 1 else s.score
    let sand := if fc % 5 = 0
      then createParticles 110 (GROUND_Y - 5) "#ffcc80" s.nextParticleId env.sandRands
      else []
    let parts2 := parts1 ++ sand
    let nextPid := s.nextParticleId + sand.length
    let base : EngineState :=
      { gameState := s.gameState, score := score2, highScore := s.highScore,
        crabY := ph.crabY, crabVelocity := ph.crabVelocity,
        isSliding := s.isSliding, isJumping := ph.isJumping,
        obstacles := obs2, particles := parts2, gameSpeed := speed2,
        parallaxOffset := parallax, nextObstacleId := nextOid,
        nextParticleId := nextPid, lastObstacleTime := lastT, frameCount := fc }
    if checkCollision obs2 ph.crabY s.isSliding then
      let burst := createParticles 120 (ph.crabY + 20) "#ff2d95" nextPid env.deathRands
      { base with
        gameState := .gameover,
        highScore := if score2 > s.highScore then score2 else s.highScore,
        particles := parts2 ++ burst,
        nextParticleId := nextPid + burst.length }
    else base
  else s

/-- A run of ticks: fold `tick` over a list of tick environments. -/
def ticks (envs : List TickEnv) (s : EngineState) : EngineState :=
  envs.foldl (fun st e => tick e st) s

/-! ## Input requests (lines 236-260, 294-305)

The abstract input actions of the spec, as implemented by the key
handlers.  Each validates the current `gameState`/stance; an invalid
request leaves the state untouched (no handler branch fires, nothing is
set). -/

/-- `startGame` (lines 294-305) plus the frame-counter / spawn-clock re-arm
of the `gameState === 'playing'` effect (lines 222-227), which runs on
entering `Playing`.  `now` is the `Date.now()` read of line 225. -/
def startGame (now : ℤ) (s : EngineState) : EngineState :=
  { s with
    gameState := .playing, score := 0,
    crabY := GROUND_Y - CRAB_HEIGHT, crabVelocity := 0,
    isSliding := false, isJumping := false,
    obstacles := [], particles := [], gameSpeed := 6, parallaxOffset := 0,
    frameCount := 0, lastObstacleTime := now }

/-- `RequestStart`: `handleKeyDown` (lines 237-242) calls `startGame` only
from `menu` or `gameover`. -/
def requestStart (now : ℤ) (s : EngineState) : EngineState :=
  if s.gameState = .menu ∨ s.gameState = .gameover then startGame now s else s

/-- `RequestJump`: the jump branch of `handleKeyDown` (lines 245-249),
guarded by `gameState === 'playing' && !isJumping && !isSliding`; a valid
jump sets the velocity to `JUMP_FORCE`, the jumping flag, and emits a
cosmetic burst (line 248, randomness injected). -/
def requestJump (burstRands : List ParticleRand) (s : EngineState) : EngineState :=
  if s.gameState = .playing ∧ s.isJumping = false ∧ s.isSliding = false then
    let burst := createParticles 100 (GROUND_Y - 10) "#00f5ff" s.nextParticleId burstRands
    { s with
      crabVelocity := JUMP_FORCE, isJumping := true,
      particles := s.particles ++ burst,
      nextParticleId := s.nextParticleId + burst.length }
  else s

/-- `RequestSlideStart`: the slide branch of `handleKeyDown` (lines
250-252), guarded by `gameState === 'playing' && !isJumping`. -/
def requestSlideStart (s : EngineState) : EngineState :=
  if s.gameState = .playing ∧ s.isJumping = false then { s with isSliding := true } else s

/-- `RequestSlideEnd`: `handleKeyUp` (lines 256-260), unguarded. -/
def requestSlideEnd (s : EngineState) : EngineState :=
  { s with isSliding := false }

/-! ## Derived views used to state the ordering claim -/

/-- The player-physics state after the physics sub-update of a tick. -/
def postPhysics (s : EngineState) : PhysicsState :=
  physicsStep { crabY := s.crabY, crabVelocity := s.crabVelocity, isJumping := s.isJumping }

/-- The obstacle field after the advance/prune and conditional-spawn
sub-updates of a tick. -/
def postObstacles (env : TickEnv) (s : EngineState) : List Obstacle :=
  let obs1 := advanceObstacles s.gameSpeed s.obstacles
  if shouldSpawn env.now s.lastObstacleTime s.score
    then obs1 ++ [spawnObstacle env.spawnType env.spawnJitter s.nextObstacleId]
    else obs1

/-! ## The scroll-speed ramp as a function of elapsed ticks (lines 189-192) -/

/-- The scroll speed after `n` elapsed ticks of a run: starts at the base
value 6 (line 47 / line 303); on each tick whose (1-based) frame count is a
multiple of 300, steps by `Math.min(prev + 0.5, 15)` (lines 190-192). -/
def speedAtTick : ℕ → ℚ
  | 0 => 6
  | n + 1 => if (n + 1) % 300 = 0 then min (speedAtTick n + 1/2) 15 else speedAtTick n

/-! ## Per-field unfolding lemmas for a playing tick

Shared helper lemmas: while `Playing`, the tick's observable fields in
terms of the sub-update functions.  Both the hit and the no-hit branch of
the collision check leave these fields alike, except `gameState`. -/

theorem tick_obstacles_playing (env : TickEnv) (s : EngineState)
    (hp : s.gameState = GameState.playing) :
    (tick env s).obstacles = postObstacles env s := by
  simp only [tick, postObstacles, if_pos hp]
  split <;> (try split) <;> rfl

theorem tick_crabY_playing (env : TickEnv) (s : EngineState)
    (hp : s.gameState = GameState.playing) :
    (tick env s).crabY = (postPhysics s).crabY := by
  simp only [tick, postPhysics, if_pos hp]
  split <;> (try split) <;> rfl

theorem tick_crabVelocity_playing (env : TickEnv) (s : EngineState)
    (hp : s.gameState = GameState.playing) :
    (tick env s).crabVelocity = (postPhysics s).crabVelocity := by
  simp only [tick, postPhysics, if_pos hp]
  split <;> (try split) <;> rfl

theorem tick_isSliding_playing (env : TickEnv) (s : EngineState)
    (hp : s.gameState = GameState.playing) :
    (tick env s).isSliding = s.isSliding := by
  simp only [tick, if_pos hp]
  split <;> (try split) <;> rfl

theorem tick_gameSpeed_playing (env : TickEnv) (s : EngineState)
    (hp : s.gameState = GameState.playing) :
    (tick env s).gameSpeed =
      if (s.frameCount + 1) % 300 = 0 then min (s.gameSpeed + 1/2) 15 else s.gameSpeed := by
  simp only [tick, if_pos hp]
  split <;> (try split) <;> rfl

theorem tick_gameState_playing (env : TickEnv) (s : EngineState)
    (hp : s.gameState = GameState.playing) :
    (tick env s).gameState =
      if checkCollision (postObstacles env s) ((postPhysics s).crabY) s.isSliding = true
      then GameState.gameover else GameState.playing := by
  simp only [tick, postObstacles, postPhysics, if_pos hp]
  split <;> (try split) <;> first | rfl | exact hp

/-! ## Concrete fixtures used by witnesses -/

/-- The Rock obstacle of the §8 scenario: `x = 100`, catalog geometry
`y = GROUND_Y - 35 = 285`, `width = 45`, `height = 35`. -/
def rockAt100 : Obstacle :=
  { id := 0, x := 100, y := 285, type := .rock, width := 45, height := 35 }

/-- A seagull hovering at `y = 250` (bottom edge `280`), entirely above the
slide hitbox (top edge `300`). -/
def seagullHigh : Obstacle :=
  { id := 1, x := 110, y := 250, type := .seagull, width := 50, height := 30 }

/-- A trivial tick environment: clock at 0, no random draws pending. -/
def env0 : TickEnv :=
  { now := 0, spawnType := .rock, spawnJitter := 0, sandRands := [], deathRands := [] }

/-! ## C2 — collision detector -/

/-- C2: `hasCollision` (source: `checkCollision`) is a pure total function
(determinism is inherent: it is a function of its arguments); it returns
`true` iff some obstacle's axis-aligned rectangle overlaps the
stance-dependent player rectangle, i.e. iff all four strict separating-axis
inequalities fail; on a cons cell it is the overlap test of the head
or-short-circuited with the rest, so it returns `true` at the first
overlap without inspecting later obstacles; and the §8 Rock scenario
(`x=100, width=45, y=285` against the standing player rectangle
`x=100..150, y=280..320`) yields `true`. -/
theorem checkCollision_aabb_spec :
    (∀ (l : List Obstacle) (y : ℚ) (sl : Bool),
       checkCollision l y sl = true ↔
         ∃ o ∈ l, (100 : ℚ) < o.x + o.width ∧ 100 + CRAB_WIDTH > o.x ∧
           crabHitY y sl < o.y + o.height ∧ crabHitY y sl + crabHitH sl > o.y) ∧
    (∀ (o : Obstacle) (l : List Obstacle) (y : ℚ) (sl : Bool),
       checkCollision (o :: l) y sl =
         (overlapsCrab (crabHitY y sl) (crabHitH sl) o || checkCollision l y sl)) ∧
    (∀ (o : Obstacle) (l : List Obstacle) (y : ℚ) (sl : Bool),
       overlapsCrab (crabHitY y sl) (crabHitH sl) o = true →
       checkCollision (o :: l) y sl = true) ∧
    checkCollision [rockAt100] 280 false = true := by
  refine ⟨?_, ?_, ?_, ?_⟩
  · intro l y sl
    simp [checkCollision, overlapsCrab, List.any_eq_true, and_assoc]
  · intro o l y sl
    simp [checkCollision]
  · intro o l y sl h
    simp [checkCollision, h]
  · norm_num [checkCollision, rockAt100, overlapsCrab, crabHitY, crabHitH,
      CRAB_WIDTH, CRAB_HEIGHT]

/-- Witness for C2: the short-circuit conjunct applied to the scenario
rock in front of a further list. -/
theorem checkCollision_aabb_spec_witness :
    checkCollision [rockAt100, seagullHigh] 280 false = true :=
  checkCollision_aabb_spec.2.2.1 rockAt100 [seagullHigh] 280 false
    (by norm_num [rockAt100, overlapsCrab, crabHitY, crabHitH, CRAB_WIDTH, CRAB_HEIGHT])

/-! ## C3 — sliding hitbox -/

/-- C3: the sliding hitbox has strictly smaller height than the standing
one and is anchored at ground level (its top is `GROUND_Y - SLIDE_HEIGHT`
and its bottom is exactly `GROUND_Y`, regardless of the player's vertical
position), whereas any other stance uses the full height anchored at the
player's current vertical position; and for a sliding player,
`hasCollision` returns `false` whenever every obstacle's rectangle lies
entirely above the slide hitbox (obstacle bottom at or above the hitbox
top). -/
theorem sliding_hitbox_spec :
    crabHitH true < crabHitH false ∧
    (∀ y : ℚ, crabHitY y true = GROUND_Y - SLIDE_HEIGHT ∧
       crabHitY y true + crabHitH true = GROUND_Y) ∧
    (∀ y : ℚ, crabHitY y false = y ∧ crabHitH false = CRAB_HEIGHT) ∧
    (∀ (l : List Obstacle) (y : ℚ),
       (∀ o ∈ l, o.y + o.height ≤ GROUND_Y - SLIDE_HEIGHT) →
       checkCollision l y true = false) := by
  refine ⟨?_, ?_, ?_, ?_⟩
  · norm_num [crabHitH, SLIDE_HEIGHT, CRAB_HEIGHT]
  · intro y
    norm_num [crabHitY, crabHitH, GROUND_Y, SLIDE_HEIGHT]
  · intro y
    simp [crabHitY, crabHitH]
  · intro l y h
    simp only [checkCollision, List.any_eq_false]
    intro o ho
    have hob := h o ho
    simp only [overlapsCrab, crabHitY, crabHitH, if_true, Bool.and_eq_true,
      decide_eq_true_eq]
    rintro ⟨⟨⟨-, -⟩, h3⟩, -⟩
    linarith

/-- Witness for C3: the obstacle-above-the-slide-hitbox conjunct applied to
a concrete high seagull. -/
theorem sliding_hitbox_spec_witness :
    checkCollision [seagullHigh] 280 true = false :=
  sliding_hitbox_spec.2.2.2 [seagullHigh] 280
    (by
      intro o ho
      simp only [List.mem_singleton] at ho
      subst ho
      norm_num [seagullHigh, GROUND_Y, SLIDE_HEIGHT])

/-! ## C10 — touching rectangles do not collide -/

/-- C10: because all four separating-axis tests of `checkCollision` are
strict inequalities, rectangles that merely touch do not collide: for any
player state, if every obstacle satisfies one of the four boundary-contact
equalities (obstacle right edge = player left edge `100`, obstacle left
edge = player right edge `100 + CRAB_WIDTH`, obstacle bottom = player
hitbox top, obstacle top = player hitbox bottom), then `checkCollision`
returns `false`. -/
theorem touching_rectangles_no_collision :
    ∀ (l : List Obstacle) (y : ℚ) (sl : Bool),
      (∀ o ∈ l, o.x + o.width = 100 ∨ o.x = 100 + CRAB_WIDTH ∨
        o.y + o.height = crabHitY y sl ∨ o.y = crabHitY y sl + crabHitH sl) →
      checkCollision l y sl = false := by
  intro l y sl h
  simp only [checkCollision, List.any_eq_false]
  intro o ho
  simp only [overlapsCrab, Bool.and_eq_true, decide_eq_true_eq]
  rintro ⟨⟨⟨h1, h2⟩, h3⟩, h4⟩
  rcases h o ho with hc | hc | hc | hc
  · linarith
  · linarith
  · linarith
  · linarith

/-- A rock whose right edge exactly meets the player's left edge:
`x = 55`, `width = 45`, so right edge `= 100`. -/
def rockTouchingLeft : Obstacle :=
  { id := 3, x := 55, y := 285, type := .rock, width := 45, height := 35 }

/-- Witness for C10: the boundary-touching rock does not collide with the
standing player. -/
theorem touching_rectangles_no_collision_witness :
    checkCollision [rockTouchingLeft] 280 false = false :=
  touching_rectangles_no_collision _ 280 false
    (by
      intro o ho
      simp only [List.mem_singleton] at ho
      subst ho
      norm_num [rockTouchingLeft])

/-! ## C4 — jump physics -/

/-- C4: starting a jump from ground position 280 with velocity 0, the
impulse sets the velocity to `JUMP_FORCE = -15` (the jump handler assigns,
so from velocity 0 this is the impulse), and one integration step yields
velocity `-14.2 = -71/5` and position `265.8 = 1329/5`; and for every
airborne state, a tick first adds gravity to the velocity, then adds the
new velocity to the position, and when the position reaches or crosses the
ground plane (`crabY ≥ GROUND_Y - CRAB_HEIGHT = 280`) it is clamped to
ground level, the velocity is reset to 0 and the stance returns to
Standing (`isJumping = false`). -/
theorem crab_physics_integration :
    physicsStep { crabY := 280, crabVelocity := JUMP_FORCE, isJumping := true } =
      { crabY := 1329/5, crabVelocity := -71/5, isJumping := true } ∧
    ∀ p : PhysicsState, p.isJumping = true →
      (GROUND_Y - CRAB_HEIGHT ≤ p.crabY + (p.crabVelocity + GRAVITY) →
        physicsStep p =
          { crabY := GROUND_Y - CRAB_HEIGHT, crabVelocity := 0, isJumping := false }) ∧
      (p.crabY + (p.crabVelocity + GRAVITY) < GROUND_Y - CRAB_HEIGHT →
        physicsStep p =
          { crabY := p.crabY + (p.crabVelocity + GRAVITY),
            crabVelocity := p.crabVelocity + GRAVITY, isJumping := true }) := by
  constructor
  · norm_num [physicsStep, JUMP_FORCE, GRAVITY, GROUND_Y, CRAB_HEIGHT]
  · intro p hp
    constructor
    · intro h
      simp [physicsStep, hp, ge_iff_le, h]
    · intro h
      simp [physicsStep, hp, ge_iff_le, not_le.mpr h, hp]

/-- Witness for C4: the clamping branch applied to an airborne state about
to cross the ground plane (`crabY = 279` falling at velocity 5: next
position `284.8 ≥ 280`). -/
theorem crab_physics_integration_witness :
    physicsStep { crabY := 279, crabVelocity := 5, isJumping := true } =
      { crabY := GROUND_Y - CRAB_HEIGHT, crabVelocity := 0, isJumping := false } :=
  (crab_physics_integration.2 { crabY := 279, crabVelocity := 5, isJumping := true }
      rfl).1
    (by norm_num [GROUND_Y, CRAB_HEIGHT, GRAVITY])

/-! ## C5 — spawn interval -/

/-- C5: the spawn interval is `1500 - min (score * 2) 800` milliseconds; it
is non-increasing in the score, never below its floor of 700 ms (hence
never negative), and equals 1300 ms at score 100; `shouldSpawn` holds
exactly when the elapsed wall time since the last spawn strictly exceeds
the interval, and a tick spawns a new obstacle exactly when `shouldSpawn`
holds (otherwise the obstacle field is just the advanced one). -/
theorem spawn_interval_spec :
    (∀ score : ℕ, spawnInterval score = 1500 - min ((score : ℤ) * 2) 800) ∧
    (∀ s t : ℕ, s ≤ t → spawnInterval t ≤ spawnInterval s) ∧
    (∀ score : ℕ, 700 ≤ spawnInterval score) ∧
    (∀ score : ℕ, 0 ≤ spawnInterval score) ∧
    spawnInterval 100 = 1300 ∧
    (∀ (now last : ℤ) (score : ℕ),
       shouldSpawn now last score = true ↔ spawnInterval score < now - last) ∧
    (∀ (env : TickEnv) (s : EngineState), s.gameState = .playing →
       shouldSpawn env.now s.lastObstacleTime s.score = false →
       (tick env s).obstacles = advanceObstacles s.gameSpeed s.obstacles) ∧
    (∀ (env : TickEnv) (s : EngineState), s.gameState = .playing →
       shouldSpawn env.now s.lastObstacleTime s.score = true →
       (tick env s).obstacles = advanceObstacles s.gameSpeed s.obstacles ++
         [spawnObstacle env.spawnType env.spawnJitter s.nextObstacleId]) := by
  refine ⟨fun _ => rfl, ?_, ?_, ?_, by decide, ?_, ?_, ?_⟩
  · intro s t h
    simp only [spawnInterval]
    omega
  · intro score
    simp only [spawnInterval]
    omega
  · intro score
    simp only [spawnInterval]
    omega
  · intro now last score
    simp [shouldSpawn]
  · intro env s hp hns
    rw [tick_obstacles_playing env s hp]
    simp [postObstacles, hns]
  · intro env s hp hsp
    rw [tick_obstacles_playing env s hp]
    simp [postObstacles, hsp]

/-- Witness for C5: monotonicity applied at scores 50 ≤ 100, and the
no-spawn conjunct applied to the freshly started engine under the trivial
environment (elapsed time 0 does not exceed the 1500 ms interval). -/
theorem spawn_interval_spec_witness :
    spawnInterval 100 ≤ spawnInterval 50 ∧
    (tick env0 (startGame 0 initialState)).obstacles =
      advanceObstacles 6 [] :=
  ⟨spawn_interval_spec.2.1 50 100 (by decide),
   spawn_interval_spec.2.2.2.2.2.2.1 env0 (startGame 0 initialState) rfl (by decide)⟩

/-! ## C6 — scroll-speed ramp -/

/-- C6: within a run the scroll speed starts at the base value 6; a tick
whose frame count is a multiple of 300 steps it by `min (speed + 1/2) 15`
(the connection conjunct ties the tick to this rule); as a function of
elapsed ticks it is non-decreasing, never exceeds the cap 15, and while
below the cap each 300-tick boundary adds exactly the increment 0.5. -/
theorem scroll_speed_ramp :
    speedAtTick 0 = 6 ∧
    (∀ now s, (startGame now s).gameSpeed = 6) ∧
    (∀ n : ℕ, speedAtTick n ≤ 15) ∧
    (∀ m n : ℕ, m ≤ n → speedAtTick m ≤ speedAtTick n) ∧
    (∀ n : ℕ, (n + 1) % 300 = 0 → speedAtTick n + 1/2 ≤ 15 →
       speedAtTick (n + 1) = speedAtTick n + 1/2) ∧
    (∀ (env : TickEnv) (s : EngineState), s.gameState = .playing →
       (tick env s).gameSpeed =
         if (s.frameCount + 1) % 300 = 0 then min (s.gameSpeed + 1/2) 15
         else s.gameSpeed) := by
  have hbound : ∀ n : ℕ, speedAtTick n ≤ 15 := by
    intro n
    induction n with
    | zero => norm_num [speedAtTick]
    | succ k ih =>
      simp only [speedAtTick]
      split
      · exact min_le_right _ _
      · exact ih
  have hstep : ∀ n : ℕ, speedAtTick n ≤ speedAtTick (n + 1) := by
    intro n
    simp only [speedAtTick]
    split
    · exact le_min (by linarith) (hbound n)
    · exact le_refl _
  refine ⟨rfl, fun now s => rfl, hbound, ?_, ?_, ?_⟩
  · intro m n h
    exact monotone_nat_of_le_succ hstep h
  · intro n h300 hcap
    simp only [speedAtTick, if_pos h300]
    exact min_eq_left hcap
  · intro env s hp
    exact tick_gameSpeed_playing env s hp

/-- Witness for C6: monotonicity applied at ticks 2 ≤ 7, the 300-tick
increment applied at the first ramp boundary (tick 299 → 300, where the
speed is still 6), and the tick-rule conjunct applied to the freshly
started engine. -/
theorem scroll_speed_ramp_witness :
    speedAtTick 2 ≤ speedAtTick 7 ∧
    speedAtTick 300 = speedAtTick 299 + 1/2 ∧
    (tick env0 (startGame 0 initialState)).gameSpeed = 6 := by
  refine ⟨scroll_speed_ramp.2.2.2.1 2 7 (by norm_num),
          scroll_speed_ramp.2.2.2.2.1 299 (by norm_num) ?_, ?_⟩
  · have h299 : speedAtTick 299 = 6 := by
      have hconst : ∀ k : ℕ, k ≤ 299 → speedAtTick k = 6 := by
        intro k hk
        induction k with
        | zero => rfl
        | succ j ih =>
          have hj : j ≤ 299 := Nat.le_of_succ_le hk
          have hne : (j + 1) % 300 ≠ 0 := by omega
          simp only [speedAtTick, if_neg hne]
          exact ih hj
      exact hconst 299 (le_refl _)
    rw [h299]
    norm_num
  · rw [scroll_speed_ramp.2.2.2.2.2 env0 (startGame 0 initialState) rfl]
    norm_num [startGame, initialState]

/-! ## C7 — obstacle advance and prune -/

/-- C7: every obstacle surviving an advance step is the image of a field
obstacle whose horizontal position decreased by exactly the scroll speed,
with all other fields (id, type, y, width, height) unchanged, and sits
strictly right of the prune threshold `-100` — so an obstacle that has
crossed the threshold is never an element of any advanced field
(it is removed and never reappears); an obstacle still right of the
threshold after the move survives, and one at or beyond it is removed. -/
theorem obstacle_advance_prune :
    (∀ (speed : ℚ) (l : List Obstacle) (m : Obstacle), m ∈ advanceObstacles speed l →
       -100 < m.x ∧ ∃ o ∈ l, m = moveObstacle speed o ∧ m.x = o.x - speed ∧
         m.id = o.id ∧ m.type = o.type ∧ m.y = o.y ∧
         m.width = o.width ∧ m.height = o.height) ∧
    (∀ (speed : ℚ) (l : List Obstacle) (o : Obstacle), o ∈ l → -100 < o.x - speed →
       moveObstacle speed o ∈ advanceObstacles speed l) ∧
    (∀ (speed : ℚ) (l : List Obstacle) (o : Obstacle), o.x - speed ≤ -100 →
       moveObstacle speed o ∉ advanceObstacles speed l) := by
  refine ⟨?_, ?_, ?_⟩
  · intro speed l m hm
    simp only [advanceObstacles, List.mem_filter, List.mem_map,
      decide_eq_true_eq] at hm
    obtain ⟨⟨o, ho, rfl⟩, hx⟩ := hm
    exact ⟨hx, o, ho, rfl, rfl, rfl, rfl, rfl, rfl, rfl⟩
  · intro speed l o ho hx
    simp only [advanceObstacles, List.mem_filter, List.mem_map, decide_eq_true_eq]
    exact ⟨⟨o, ho, rfl⟩, hx⟩
  · intro speed l o hx hmem
    simp only [advanceObstacles, List.mem_filter, List.mem_map,
      decide_eq_true_eq] at hmem
    have : -100 < (moveObstacle speed o).x := hmem.2
    simp only [moveObstacle] at this
    linarith

/-- Witness for C7: the scenario rock at `x = 100` advanced at speed 6
survives at `x = 94`, while an obstacle at `x = -95` is pruned at speed 6
(new position `-101 ≤ -100`). -/
theorem obstacle_advance_prune_witness :
    moveObstacle 6 rockAt100 ∈ advanceObstacles 6 [rockAt100] ∧
    moveObstacle 6 { rockTouchingLeft with x := -95 } ∉
      advanceObstacles 6 [{ rockTouchingLeft with x := -95 }] := by
  constructor
  · exact obstacle_advance_prune.2.1 6 [rockAt100] rockAt100 (List.mem_singleton.mpr rfl)
      (by norm_num [rockAt100])
  · exact obstacle_advance_prune.2.2 6 [{ rockTouchingLeft with x := -95 }]
      { rockTouchingLeft with x := -95 } (by norm_num)

/-! ## C8 — RequestStart resets the run -/

/-- C8: a `RequestStart` issued in `Menu` or in `GameOver` yields
`Playing` with score 0, the player grounded (`crabY = GROUND_Y -
CRAB_HEIGHT`) and standing (not sliding, not jumping) with zero velocity,
empty obstacle and particle lists, scroll speed reset to the base value 6,
frame counter reset to 0 and parallax offset reset to 0. -/
theorem request_start_resets :
    ∀ (now : ℤ) (s : EngineState),
      s.gameState = .menu ∨ s.gameState = .gameover →
      (requestStart now s).gameState = .playing ∧
      (requestStart now s).score = 0 ∧
      (requestStart now s).crabY = GROUND_Y - CRAB_HEIGHT ∧
      (requestStart now s).crabVelocity = 0 ∧
      (requestStart now s).isSliding = false ∧
      (requestStart now s).isJumping = false ∧
      (requestStart now s).obstacles = [] ∧
      (requestStart now s).particles = [] ∧
      (requestStart now s).gameSpeed = 6 ∧
      (requestStart now s).parallaxOffset = 0 ∧
      (requestStart now s).frameCount = 0 := by
  intro now s h
  simp [requestStart, h, startGame]

/-- Witness for C8: starting from a game-over state built by playing a
menu start into gameover-by-hand (a concrete record), the reset holds. -/
theorem request_start_resets_witness :
    (requestStart 42 { initialState with gameState := .gameover, score := 7 }).score = 0 :=
  (request_start_resets 42 { initialState with gameState := .gameover, score := 7 }
    (Or.inr rfl)).2.1

/-! ## C9 — invalid input requests are silent no-ops -/

/-- C9: invalid input requests are silent no-ops with no observable side
effect (every request is a total function returning the state unchanged,
nothing errors): a `RequestJump` while jumping or while sliding leaves the
whole engine state unchanged (velocity, stance and everything else), and a
`RequestSlideStart` while airborne leaves the whole state (in particular
the stance) unchanged. -/
theorem invalid_requests_are_noops :
    (∀ (rs : List ParticleRand) (s : EngineState),
       s.isJumping = true ∨ s.isSliding = true → requestJump rs s = s) ∧
    (∀ s : EngineState, s.isJumping = true → requestSlideStart s = s) := by
  constructor
  · intro rs s h
    rcases h with h | h <;> simp [requestJump, h]
  · intro s h
    simp [requestSlideStart, h]

/-- Witness for C9: a jump request during a jump, and a slide request
during a jump, both leave a concrete mid-air playing state untouched. -/
theorem invalid_requests_are_noops_witness :
    requestJump [] { initialState with gameState := .playing, isJumping := true } =
      { initialState with gameState := .playing, isJumping := true } ∧
    requestSlideStart { initialState with gameState := .playing, isJumping := true } =
      { initialState with gameState := .playing, isJumping := true } :=
  ⟨invalid_requests_are_noops.1 [] _ (Or.inl rfl),
   invalid_requests_are_noops.2 _ rfl⟩

/-! ## C1 — tick gating, sub-update order, collision on post-update state -/

/-- C1: the per-frame update runs only while the run state is `Playing`
(`tick` is the identity on `Menu` and `GameOver`, and so is any run of
ticks — no tick executes after a `GameOver`/`Menu` transition until
`RequestStart` flips the state back to `Playing`); while `Playing`, the
sub-updates run in the fixed §4.7 order built into `tick`, and the
collision check is evaluated against the post-update player position
(`postPhysics`) and the post-update obstacle field (`postObstacles`,
advance/prune then conditional spawn) of that same tick: the run state
transitions to `GameOver` exactly when that post-update collision check
fires, and stays `Playing` exactly when it does not. -/
theorem tick_gating_and_collision_order :
    (∀ (env : TickEnv) (s : EngineState), s.gameState ≠ .playing → tick env s = s) ∧
    (∀ (envs : List TickEnv) (s : EngineState), s.gameState ≠ .playing →
       ticks envs s = s) ∧
    (∀ (env : TickEnv) (s : EngineState), s.gameState = .playing →
       (tick env s).crabY = (postPhysics s).crabY ∧
       (tick env s).crabVelocity = (postPhysics s).crabVelocity ∧
       (tick env s).obstacles = postObstacles env s ∧
       ((tick env s).gameState = .gameover ↔
          checkCollision (postObstacles env s) ((postPhysics s).crabY) s.isSliding = true) ∧
       ((tick env s).gameState = .playing ↔
          checkCollision (postObstacles env s) ((postPhysics s).crabY) s.isSliding = false)) := by
  have hid : ∀ (env : TickEnv) (s : EngineState), s.gameState ≠ .playing → tick env s = s := by
    intro env s h
    simp [tick, h]
  refine ⟨hid, ?_, ?_⟩
  · intro envs
    induction envs with
    | nil => intro s _; rfl
    | cons e rest ih =>
      intro s h
      show ticks rest (tick e s) = s
      rw [hid e s h]
      exact ih s h
  · intro env s hp
    refine ⟨tick_crabY_playing env s hp, tick_crabVelocity_playing env s hp,
      tick_obstacles_playing env s hp, ?_, ?_⟩
    · rw [tick_gameState_playing env s hp]
      constructor
      · intro h
        by_contra hc
        rw [if_neg hc] at h
        exact GameState.noConfusion h
      · intro h
        rw [if_pos h]
    · rw [tick_gameState_playing env s hp]
      constructor
      · intro h
        by_contra hc
        have : checkCollision (postObstacles env s) ((postPhysics s).crabY) s.isSliding = true := by
          cases hcc : checkCollision (postObstacles env s) ((postPhysics s).crabY) s.isSliding
          · exact absurd hcc hc
          · rfl
        rw [if_pos this] at h
        exact GameState.noConfusion h
      · intro h
        rw [if_neg (by simp [h])]

/-- Witness for C1: no tick fires from the initial menu state (singly or
as a run of three), and from a freshly started playing state with no
obstacles the tick keeps the state `Playing` (the post-update collision
check is false on the empty advanced field). -/
theorem tick_gating_and_collision_order_witness :
    tick env0 initialState = initialState ∧
    ticks [env0, env0, env0] initialState = initialState ∧
    (tick env0 (startGame 0 initialState)).gameState = .playing := by
  refine ⟨tick_gating_and_collision_order.1 env0 initialState (by simp [initialState]),
    tick_gating_and_collision_order.2.1 [env0, env0, env0] initialState
      (by simp [initialState]), ?_⟩
  rw [(tick_gating_and_collision_order.2.2 env0 (startGame 0 initialState) rfl).2.2.2.2]
  norm_num [postObstacles, postPhysics, startGame, initialState, shouldSpawn,
    spawnInterval, advanceObstacles, checkCollision, env0]

end CrabDash
